import Mathlib

/-!
Verification of the CSS-selector-builder of `src/05-objects-tasks.js`
(object `cssSelectorBuilder`, lines 121-315).

The builder is a JS object whose methods dispatch on two own properties:
`selector` (a string, `undefined` on the root/template object) and
`usedSelectors` (a record of six booleans, `undefined` on the root and on
composites made by `combine`).  Each part method

  * first checks `this.usedSelectors && this.usedSelectors.<kind>` for the
    singleton kinds (element, id, pseudoElement) and throws the
    "should not occur more then one time" error;
  * then checks `this.usedSelectors && (<flags of strictly higher kinds>)`
    and throws the "should be arranged in the following order" error;
  * then, if `this.selector` is truthy, appends the formatted fragment to
    `this.selector`, sets the kind's flag in `this.usedSelectors`
    (a TypeError if `usedSelectors` is undefined) and returns `this`;
  * otherwise allocates a fresh instance (prototype `this`) with the
    fragment as selector and a fresh flag record, and returns it.

`stringify()` returns `this.selector` (which is `undefined` on the root —
no error is thrown).  `combine` eagerly renders both operands into a new
instance whose `usedSelectors` is undefined.

The embedding below mirrors that object field by field: JS `undefined` is
`Option.none`, JS string truthiness is non-emptiness, and each method is a
pure function returning the thrown error or the returned builder together
with the post-call state of the receiver and whether the returned object
is freshly allocated.
-/

/-- The six selector-part kinds, in the order required by the builder. -/
inductive Kind where
  | element
  | id
  | className
  | attribute
  | pseudoClass
  | pseudoElement
deriving DecidableEq, Repr

/-- Order value of a kind: element(0) < id(1) < class(2) < attribute(3)
    < pseudoClass(4) < pseudoElement(5). -/
def Kind.order : Kind → Nat
  | .element => 0
  | .id => 1
  | .className => 2
  | .attribute => 3
  | .pseudoClass => 4
  | .pseudoElement => 5

/-- The `usedSelectors` record of the source (lines 147-154 etc.):
    one boolean per kind, field names as in the source. -/
structure UsedSelectors where
  element : Bool
  id : Bool
  className : Bool
  attrib : Bool
  pseudoClass : Bool
  pseudoElement : Bool
deriving DecidableEq, Repr

/-- Read the flag of a kind out of a `usedSelectors` record. -/
def UsedSelectors.flag (u : UsedSelectors) : Kind → Bool
  | .element => u.element
  | .id => u.id
  | .className => u.className
  | .attribute => u.attrib
  | .pseudoClass => u.pseudoClass
  | .pseudoElement => u.pseudoElement

/-- `this.usedSelectors.<kind> = true` — set one flag. -/
def setFlag (u : UsedSelectors) : Kind → UsedSelectors
  | .element => ⟨true, u.id, u.className, u.attrib, u.pseudoClass, u.pseudoElement⟩
  | .id => ⟨u.element, true, u.className, u.attrib, u.pseudoClass, u.pseudoElement⟩
  | .className => ⟨u.element, u.id, true, u.attrib, u.pseudoClass, u.pseudoElement⟩
  | .attribute => ⟨u.element, u.id, u.className, true, u.pseudoClass, u.pseudoElement⟩
  | .pseudoClass => ⟨u.element, u.id, u.className, u.attrib, true, u.pseudoElement⟩
  | .pseudoElement => ⟨u.element, u.id, u.className, u.attrib, u.pseudoClass, true⟩

/-- The fresh `usedSelectors` literal each method writes on the instance
    branch: everything `false` except the incoming kind (lines 147-154,
    182-189, 212-219, 241-248, 269-276, 294-301). -/
def initialUsed : Kind → UsedSelectors
  | .element => ⟨true, false, false, false, false, false⟩
  | .id => ⟨false, true, false, false, false, false⟩
  | .className => ⟨false, false, true, false, false, false⟩
  | .attribute => ⟨false, false, false, true, false, false⟩
  | .pseudoClass => ⟨false, false, false, false, true, false⟩
  | .pseudoElement => ⟨false, false, false, false, false, true⟩

/-- The kinds whose methods carry the "more then one time" duplicate
    check in the source: `element` (line 123), `id` (line 159) and
    `pseudoElement` (line 281). -/
def isSingletonKind : Kind → Bool
  | .element => true
  | .id => true
  | .pseudoElement => true
  | _ => false

/-- The duplicate condition each method tests on `this.usedSelectors`
    (lines 123, 159, 281; the other three methods have none). -/
def dupCheck (k : Kind) (u : UsedSelectors) : Bool :=
  match k with
  | .element => u.element
  | .id => u.id
  | .pseudoElement => u.pseudoElement
  | _ => false

/-- The ordering condition each method tests on `this.usedSelectors`:
    the disjunction of the flags of all strictly higher kinds
    (lines 127-131 for element, 163-166 for id, 194-196 for class,
    224-225 for attr, 253 for pseudoClass; pseudoElement has none). -/
def orderCheck (k : Kind) (u : UsedSelectors) : Bool :=
  match k with
  | .element => u.id || u.className || u.attrib || u.pseudoClass || u.pseudoElement
  | .id => u.className || u.attrib || u.pseudoClass || u.pseudoElement
  | .className => u.attrib || u.pseudoClass || u.pseudoElement
  | .attribute => u.pseudoClass || u.pseudoElement
  | .pseudoClass => u.pseudoElement
  | .pseudoElement => false

/-- The state of one builder object: its two own properties.
    `none` stands for the JS `undefined`. -/
structure Builder where
  selector : Option String
  usedSelectors : Option UsedSelectors
deriving DecidableEq, Repr

/-- The root `cssSelectorBuilder` object: neither property is set. -/
def rootBuilder : Builder := ⟨none, none⟩

/-- The exceptions the methods can throw: the two `new Error(...)` of the
    source, plus the TypeError that setting a property of an undefined
    `usedSelectors` raises. -/
inductive JsError where
  | duplicateError
  | orderError
  | typeError
deriving DecidableEq, Repr

/-- JS truthiness of `this.selector`: `undefined` and the empty string
    are falsy, every other string is truthy. -/
def truthy : Option String → Bool
  | none => false
  | some s => decide (s ≠ "")

/-- The formatted fragment each method appends (element → value, id →
    `#value`, class → `.value`, attr → `[value]`, pseudoClass →
    `:value`, pseudoElement → `::value`). -/
def fragment : Kind → String → String
  | .element, v => v
  | .id, v => "#" ++ v
  | .className, v => "." ++ v
  | .attribute, v => "[" ++ v ++ "]"
  | .pseudoClass, v => ":" ++ v
  | .pseudoElement, v => "::" ++ v

/-- Equality of call results is decidable, so concrete runs can be checked
    by evaluation. -/
instance exceptDecEq {ε α : Type} [DecidableEq ε] [DecidableEq α] :
    DecidableEq (Except ε α) := fun x y =>
  match x, y with
  | Except.ok a, Except.ok b =>
    if h : a = b then isTrue (by rw [h]) else isFalse (by intro hc; cases hc; exact h rfl)
  | Except.ok _, Except.error _ => isFalse (by intro hc; cases hc)
  | Except.error _, Except.ok _ => isFalse (by intro hc; cases hc)
  | Except.error e, Except.error f =>
    if h : e = f then isTrue (by rw [h]) else isFalse (by intro hc; cases hc; exact h rfl)

/-- Everything observable about one part-method call: the thrown error or
    the returned builder's state, the post-call state of the receiver
    object, and whether the returned object is a freshly allocated
    instance (`true`) or the receiver itself (`false`). -/
structure ApplyOutcome where
  result : Except JsError Builder
  receiver : Builder
  fresh : Bool
deriving DecidableEq, Repr

/-- `this.usedSelectors && this.usedSelectors.<dup-flag>`:
    false when `usedSelectors` is undefined. -/
def dupCond (k : Kind) (b : Builder) : Bool :=
  match b.usedSelectors with
  | some u => dupCheck k u
  | none => false

/-- `this.usedSelectors && (<higher flags>)`:
    false when `usedSelectors` is undefined. -/
def orderCond (k : Kind) (b : Builder) : Bool :=
  match b.usedSelectors with
  | some u => orderCheck k u
  | none => false

/-- One part-method call (`element`/`id`/`class`/`attr`/`pseudoClass`/
    `pseudoElement`, lines 122-303), with the method selected by `k`.
    Check order and effects follow the source literally: duplicate check,
    ordering check, then the truthiness dispatch on `this.selector`; on
    the truthy branch `this.selector += fragment` happens before
    `this.usedSelectors.<k> = true`, so when `usedSelectors` is undefined
    the TypeError is raised with the selector already extended. -/
def applyPartOp (k : Kind) (v : String) (b : Builder) : ApplyOutcome :=
  if dupCond k b then
    ⟨Except.error JsError.duplicateError, b, false⟩
  else if orderCond k b then
    ⟨Except.error JsError.orderError, b, false⟩
  else if truthy b.selector then
    match b.usedSelectors with
    | some u =>
      let b' : Builder := ⟨some (b.selector.getD "" ++ fragment k v), some (setFlag u k)⟩
      ⟨Except.ok b', b', false⟩
    | none =>
      ⟨Except.error JsError.typeError,
        { b with selector := some (b.selector.getD "" ++ fragment k v) }, false⟩
  else
    ⟨Except.ok ⟨some (fragment k v), some (initialUsed k)⟩, b, true⟩

/-- The value `stringify()` returns: `this.selector` (line 313);
    `none` is the JS `undefined`. -/
def stringifyVal (b : Builder) : Option String := b.selector

/-- `stringify()` as a fallible call: its body `return this.selector`
    cannot throw, so the result is always `Except.ok`. -/
def stringify (b : Builder) : Except JsError (Option String) :=
  Except.ok (stringifyVal b)

/-- Coercion a JS template literal applies to an interpolated value:
    `undefined` prints as the string "undefined". -/
def jsTemplateString : Option String → String
  | none => "undefined"
  | some s => s

/-- `combine(selector1, combinator, selector2)` (lines 305-310), invoked
    on the factory object as in all of its documented uses: the new
    instance's `selector` is the eagerly rendered
    `` `${selector1.stringify()} ${combinator} ${selector2.stringify()}` ``
    and its `usedSelectors` is undefined (neither the instance nor the
    factory prototype carries one). -/
def combine (selector1 : Builder) (combinator : String) (selector2 : Builder) : Builder :=
  ⟨some (jsTemplateString (stringifyVal selector1) ++ " " ++ combinator ++ " "
      ++ jsTemplateString (stringifyVal selector2)), none⟩

/-- One part operation of a chain: which method is called and with which
    string argument. -/
structure PartOp where
  kind : Kind
  value : String
deriving DecidableEq, Repr

/-- Run a sequence of part operations, each call chained on the builder
    returned by the previous one; the first thrown error aborts the
    chain. -/
def runChainFrom (b : Builder) : List PartOp → Except JsError Builder
  | [] => Except.ok b
  | p :: ps =>
    match (applyPartOp p.kind p.value b).result with
    | Except.ok b' => runChainFrom b' ps
    | Except.error e => Except.error e

/-- Run a chain started on the root `cssSelectorBuilder` object. -/
def runChain (ps : List PartOp) : Except JsError Builder :=
  runChainFrom rootBuilder ps

/-- Concatenate the formatted fragments of the parts onto an initial
    string. -/
def concatFrom (s : String) (ps : List PartOp) : String :=
  ps.foldl (fun acc p => acc ++ fragment p.kind p.value) s

/-- The concatenation of all formatted fragments, with no separators. -/
def concatFragments (ps : List PartOp) : String :=
  concatFrom "" ps

/-- The kinds of the parts appear in non-decreasing order. -/
def kindsNonDecreasing : List PartOp → Bool
  | [] => true
  | [_] => true
  | p :: q :: r => decide (p.kind.order ≤ q.kind.order) && kindsNonDecreasing (q :: r)

/-- How many parts of the sequence have the given kind. -/
def countKind (k : Kind) (ps : List PartOp) : Nat :=
  (ps.filter (fun p => p.kind == k)).length

/-! Helper lemmas about the flag records and the checks. -/

/-- A flag set in a fresh `usedSelectors` record can only be the flag of
    the kind that created it. -/
lemma flag_initialUsed {k j : Kind} (h : (initialUsed k).flag j = true) : j = k := by
  cases k <;> cases j <;> simp_all [initialUsed, UsedSelectors.flag]

/-- Setting one flag can only add the flag of that kind. -/
lemma flag_setFlag {u : UsedSelectors} {k j : Kind} (h : (setFlag u k).flag j = true) :
    u.flag j = true ∨ j = k := by
  cases k <;> cases j <;> simp_all [setFlag, UsedSelectors.flag]

/-- The ordering check of a kind never reads the flag of that same kind. -/
lemma orderCheck_setFlag_self (k : Kind) (u : UsedSelectors) :
    orderCheck k (setFlag u k) = orderCheck k u := by
  cases k <;> rfl

/-- The ordering check of a kind passes on the fresh record of that kind. -/
lemma orderCheck_initialUsed_self (k : Kind) : orderCheck k (initialUsed k) = false := by
  cases k <;> rfl

/-- The duplicate condition is exactly: the kind is a singleton kind and
    its flag is already set. -/
lemma dupCheck_eq (k : Kind) (u : UsedSelectors) :
    dupCheck k u = (isSingletonKind k && u.flag k) := by
  cases k <;> rfl

/-- The ordering check of `k` fires as soon as the flag of some strictly
    higher kind is set. -/
lemma orderCheck_true_of {k j : Kind} {u : UsedSelectors}
    (hj : k.order < j.order) (hf : u.flag j = true) : orderCheck k u = true := by
  cases k <;> cases j <;> simp_all [orderCheck, UsedSelectors.flag, Kind.order]

/-- The ordering check of `k` passes when no strictly higher kind has its
    flag set. -/
lemma orderCheck_false_of {k : Kind} {u : UsedSelectors}
    (h : ∀ j, k.order < j.order → u.flag j = false) : orderCheck k u = false := by
  cases k
  · show (u.id || u.className || u.attrib || u.pseudoClass || u.pseudoElement) = false
    rw [show u.id = false from h Kind.id (by decide),
      show u.className = false from h Kind.className (by decide),
      show u.attrib = false from h Kind.attribute (by decide),
      show u.pseudoClass = false from h Kind.pseudoClass (by decide),
      show u.pseudoElement = false from h Kind.pseudoElement (by decide)]
    rfl
  · show (u.className || u.attrib || u.pseudoClass || u.pseudoElement) = false
    rw [show u.className = false from h Kind.className (by decide),
      show u.attrib = false from h Kind.attribute (by decide),
      show u.pseudoClass = false from h Kind.pseudoClass (by decide),
      show u.pseudoElement = false from h Kind.pseudoElement (by decide)]
    rfl
  · show (u.attrib || u.pseudoClass || u.pseudoElement) = false
    rw [show u.attrib = false from h Kind.attribute (by decide),
      show u.pseudoClass = false from h Kind.pseudoClass (by decide),
      show u.pseudoElement = false from h Kind.pseudoElement (by decide)]
    rfl
  · show (u.pseudoClass || u.pseudoElement) = false
    rw [show u.pseudoClass = false from h Kind.pseudoClass (by decide),
      show u.pseudoElement = false from h Kind.pseudoElement (by decide)]
    rfl
  · exact h Kind.pseudoElement (by decide)
  · rfl

/-- A falsy defined selector string is the empty string. -/
lemma truthy_some_false {s : String} (h : truthy (some s) = false) : s = "" := by
  simpa [truthy] using h

/-- A successful part call on a builder with both properties set, with
    both checks passing: the returned state appends the fragment to the
    selector, and its flags only add the incoming kind (whether the call
    extended in place or, for a falsy empty selector, allocated fresh). -/
lemma applyPartOp_ok_cases (k : Kind) (v : String) (b : Builder) (s : String) (u : UsedSelectors)
    (hs : b.selector = some s) (hu : b.usedSelectors = some u)
    (hd : dupCheck k u = false) (ho : orderCheck k u = false) :
    ∃ u', (applyPartOp k v b).result = Except.ok ⟨some (s ++ fragment k v), some u'⟩ ∧
      (∀ j, u'.flag j = true → u.flag j = true ∨ j = k) := by
  have hdc : dupCond k b = false := by simp [dupCond, hu, hd]
  have hoc : orderCond k b = false := by simp [orderCond, hu, ho]
  cases ht : truthy b.selector
  · have hse : s = "" := truthy_some_false (by rwa [hs] at ht)
    refine ⟨initialUsed k, ?_, fun j hj => Or.inr (flag_initialUsed hj)⟩
    subst hse
    simp [applyPartOp, hdc, hoc, ht, String.empty_append]
  · refine ⟨setFlag u k, ?_, fun j hj => flag_setFlag hj⟩
    rw [hs] at ht
    simp [applyPartOp, hdc, hoc, hu, hs, ht]

/-- Inversion of a successful part call: the returned builder has a
    defined selector ending in the fragment, a defined flag record, and
    the ordering check of the same kind still passes on it. -/
lemma applyPartOp_ok_inv {k : Kind} {v : String} {b b' : Builder}
    (h : (applyPartOp k v b).result = Except.ok b') :
    ∃ s u', b'.selector = some (s ++ fragment k v) ∧ b'.usedSelectors = some u' ∧
      orderCheck k u' = false := by
  cases hdc : dupCond k b
  · cases hoc : orderCond k b
    · cases ht : truthy b.selector
      · simp [applyPartOp, hdc, hoc, ht] at h
        exact ⟨"", initialUsed k, by rw [← h, String.empty_append], by rw [← h],
          orderCheck_initialUsed_self k⟩
      · cases husel : b.usedSelectors with
        | none => simp [applyPartOp, hdc, hoc, ht, husel] at h
        | some u =>
          simp [applyPartOp, hdc, hoc, ht, husel] at h
          refine ⟨b.selector.getD "", setFlag u k, by rw [← h], by rw [← h], ?_⟩
          rw [orderCheck_setFlag_self]
          simpa [orderCond, husel] using hoc
    · simp [applyPartOp, hdc, hoc] at h
  · simp [applyPartOp, hdc] at h

/-- Dropping the head of a non-decreasing sequence keeps it
    non-decreasing. -/
lemma nonDecr_tail {p : PartOp} {ps : List PartOp}
    (h : kindsNonDecreasing (p :: ps) = true) : kindsNonDecreasing ps = true := by
  cases ps with
  | nil => rfl
  | cons q r =>
    have hand := (Bool.and_eq_true _ _).mp h
    exact hand.2

/-- In a non-decreasing sequence the head kind is a lower bound of every
    later kind. -/
lemma nonDecr_head_le {p : PartOp} {ps : List PartOp}
    (h : kindsNonDecreasing (p :: ps) = true) :
    ∀ q ∈ ps, p.kind.order ≤ q.kind.order := by
  induction ps generalizing p with
  | nil => intro q hq; cases hq
  | cons q r ih =>
    intro q' hq'
    have h1 := (Bool.and_eq_true _ _).mp h
    have hpq : p.kind.order ≤ q.kind.order := of_decide_eq_true h1.1
    cases hq' with
    | head => exact hpq
    | tail _ hmem => exact Nat.le_trans hpq (ih h1.2 q' hmem)

/-- Unfolding the count of a kind over a cons cell. -/
lemma countKind_cons (k : Kind) (p : PartOp) (ps : List PartOp) :
    countKind k (p :: ps) = (if p.kind = k then 1 else 0) + countKind k ps := by
  by_cases h : p.kind = k <;> simp [countKind, List.filter_cons, h, Nat.add_comm]

/-- A sequence containing a part of some kind counts that kind at least
    once. -/
lemma countKind_pos_of_mem {k : Kind} {q : PartOp} {ps : List PartOp}
    (hq : q ∈ ps) (hk : q.kind = k) : 1 ≤ countKind k ps := by
  have hmem : q ∈ ps.filter (fun p => p.kind == k) :=
    List.mem_filter.mpr ⟨hq, by simp [hk]⟩
  exact List.length_pos.mpr (List.ne_nil_of_mem hmem)

/-- Main chain invariant: from a builder whose selector is `some s` and
    whose flags are only of kinds below every remaining kind (with no
    remaining singleton kind already flagged and each singleton kind
    remaining at most once), a non-decreasing remainder runs without
    error and appends exactly the concatenation of its fragments. -/
lemma chainFrom_ok : ∀ (rest : List PartOp) (s : String) (u : UsedSelectors) (b : Builder),
    b.selector = some s → b.usedSelectors = some u →
    kindsNonDecreasing rest = true →
    (∀ j q, u.flag j = true → q ∈ rest → j.order ≤ q.kind.order) →
    (∀ q, q ∈ rest → isSingletonKind q.kind = true → u.flag q.kind = false) →
    (∀ σ, isSingletonKind σ = true → countKind σ rest ≤ 1) →
    ∃ b', runChainFrom b rest = Except.ok b' ∧ b'.selector = some (concatFrom s rest) := by
  intro rest
  induction rest with
  | nil =>
    intro s u b hs hu _ _ _ _
    exact ⟨b, rfl, hs⟩
  | cons p tail ih =>
    intro s u b hs hu hord h1 h2 h3
    have hd : dupCheck p.kind u = false := by
      rw [dupCheck_eq]
      cases hsing : isSingletonKind p.kind
      · rfl
      · simp [h2 p (List.mem_cons_self p tail) hsing]
    have ho : orderCheck p.kind u = false := by
      apply orderCheck_false_of
      intro j hj
      cases hf : u.flag j
      · rfl
      · exact absurd (h1 j p hf (List.mem_cons_self p tail)) (Nat.not_le_of_lt hj)
    obtain ⟨u', hres, hflag⟩ := applyPartOp_ok_cases p.kind p.value b s u hs hu hd ho
    have hcnt : ∀ σ, isSingletonKind σ = true → countKind σ tail ≤ 1 := by
      intro σ hσ
      have hb := h3 σ hσ
      rw [countKind_cons] at hb
      omega
    obtain ⟨b', hrun, hsel⟩ := ih (s ++ fragment p.kind p.value) u'
      ⟨some (s ++ fragment p.kind p.value), some u'⟩ rfl rfl (nonDecr_tail hord)
      (by
        intro j q hj hq
        rcases hflag j hj with hilf | rfl
        · exact h1 j q hilf (List.mem_cons_of_mem p hq)
        · exact nonDecr_head_le hord q hq)
      (by
        intro q hq hqs
        cases hval : u'.flag q.kind
        · rfl
        · rcases hflag q.kind hval with hold | heq
          · exact absurd hold (by simp [h2 q (List.mem_cons_of_mem p hq) hqs])
          · exfalso
            have hc1 : 1 ≤ countKind q.kind tail := countKind_pos_of_mem hq rfl
            have hc2 := h3 q.kind hqs
            rw [countKind_cons, heq] at hc2
            rw [heq] at hc1
            rw [if_pos rfl] at hc2
            omega)
      hcnt
    refine ⟨b', ?_, ?_⟩
    · show runChainFrom b (p :: tail) = Except.ok b'
      unfold runChainFrom
      rw [hres]
      exact hrun
    · rw [hsel]
      rfl

/-- A string with a non-empty left part is non-empty. -/
lemma append_ne_empty_of_left {x y : String} (hx : x ≠ "") : x ++ y ≠ "" := by
  intro h
  have hd : (x ++ y).data = ("" : String).data := by rw [h]
  rw [String.data_append] at hd
  have hx0 : x.data = [] := (List.append_eq_nil.mp (by simpa using hd)).1
  exact hx (by cases x; simp_all)

/-- A string with a non-empty right part is non-empty. -/
lemma append_ne_empty_of_right {x y : String} (hy : y ≠ "") : x ++ y ≠ "" := by
  intro h
  have hd : (x ++ y).data = ("" : String).data := by rw [h]
  rw [String.data_append] at hd
  have hy0 : y.data = [] := (List.append_eq_nil.mp (by simpa using hd)).2
  exact hy (by cases y; simp_all)

/-- The selector string a `combine` writes is never empty: it contains
    the two spaces around the combinator token. -/
lemma combine_selector_ne {x t y : String} : (x ++ " " ++ t ++ " " ++ y) ≠ "" := by
  intro h
  have hd : (x ++ " " ++ t ++ " " ++ y).data = ("" : String).data := by rw [h]
  simp [String.data_append] at hd

/-! The claims. -/

/-- C1, counterexample: the claim quantifies over every non-decreasing
    sequence whose kinds use Element and PseudoElement at most once each,
    but the sequence id, id satisfies those hypotheses and the chain does
    not succeed: the second `id` throws the duplicate error (the source,
    line 159, also treats `id` as a singleton kind). -/
theorem C1_counterexample_id_twice :
    kindsNonDecreasing [⟨Kind.id, "a"⟩, ⟨Kind.id, "b"⟩] = true ∧
    countKind Kind.element [⟨Kind.id, "a"⟩, ⟨Kind.id, "b"⟩] ≤ 1 ∧
    countKind Kind.pseudoElement [⟨Kind.id, "a"⟩, ⟨Kind.id, "b"⟩] ≤ 1 ∧
    runChain [⟨Kind.id, "a"⟩, ⟨Kind.id, "b"⟩] = Except.error JsError.duplicateError :=
  ⟨rfl, by decide, by decide, rfl⟩

/-- C1, amended: every non-empty sequence of part operations whose kinds
    are non-decreasing and in which Element, Id and PseudoElement each
    occur at most once runs without error, and the resulting selector
    renders as the concatenation of the formatted fragments with no
    separators. -/
theorem C1_amended_valid_chain_concat (ps : List PartOp) (hne : ps ≠ [])
    (hord : kindsNonDecreasing ps = true)
    (he : countKind Kind.element ps ≤ 1)
    (hid : countKind Kind.id ps ≤ 1)
    (hpe : countKind Kind.pseudoElement ps ≤ 1) :
    ∃ b, runChain ps = Except.ok b ∧ stringifyVal b = some (concatFragments ps) := by
  cases ps with
  | nil => exact absurd rfl hne
  | cons p tail =>
    have h0 : (applyPartOp p.kind p.value rootBuilder).result =
        Except.ok ⟨some (fragment p.kind p.value), some (initialUsed p.kind)⟩ := rfl
    have hcnt : ∀ σ, isSingletonKind σ = true → countKind σ (p :: tail) ≤ 1 := by
      intro σ hσ
      cases σ <;> first | exact he | exact hid | exact hpe | exact absurd hσ (by decide)
    obtain ⟨b', hrun, hsel⟩ := chainFrom_ok tail (fragment p.kind p.value) (initialUsed p.kind)
      ⟨some (fragment p.kind p.value), some (initialUsed p.kind)⟩ rfl rfl (nonDecr_tail hord)
      (by
        intro j q hj hq
        have hjk := flag_initialUsed hj
        subst hjk
        exact nonDecr_head_le hord q hq)
      (by
        intro q hq hqs
        cases hval : (initialUsed p.kind).flag q.kind
        · rfl
        · exfalso
          have heq := flag_initialUsed hval
          have hc1 : 1 ≤ countKind q.kind tail := countKind_pos_of_mem hq rfl
          have hc2 := hcnt q.kind hqs
          rw [countKind_cons, heq] at hc2
          rw [heq] at hc1
          rw [if_pos rfl] at hc2
          omega)
      (by
        intro σ hσ
        have hle := hcnt σ hσ
        rw [countKind_cons] at hle
        omega)
    refine ⟨b', ?_, ?_⟩
    · show runChainFrom rootBuilder (p :: tail) = Except.ok b'
      unfold runChainFrom
      rw [h0]
      exact hrun
    · rw [show stringifyVal b' = b'.selector from rfl, hsel]
      show some (concatFrom (fragment p.kind p.value) tail) = some (concatFragments (p :: tail))
      rw [show concatFragments (p :: tail) = concatFrom ("" ++ fragment p.kind p.value) tail
          from rfl, String.empty_append]

/-- C1, witness: the spec example chain element, id, class, class renders
    as the concatenation div#main.container.draggable. -/
theorem C1_amended_valid_chain_concat_witness :
    ∃ b, runChain [⟨Kind.element, "div"⟩, ⟨Kind.id, "main"⟩, ⟨Kind.className, "container"⟩,
        ⟨Kind.className, "draggable"⟩] = Except.ok b ∧
      stringifyVal b = some "div#main.container.draggable" := by
  obtain ⟨b, hb1, hb2⟩ := C1_amended_valid_chain_concat [⟨Kind.element, "div"⟩,
      ⟨Kind.id, "main"⟩, ⟨Kind.className, "container"⟩, ⟨Kind.className, "draggable"⟩]
    (by decide) (by decide) (by decide) (by decide) (by decide)
  exact ⟨b, hb1, by rw [hb2]; rfl⟩

/-- C2, counterexample: the claim says `id` may be applied a second time
    to a chain that already contains an id (with no higher kind applied)
    and succeeds; in the code the second `id` throws the duplicate error
    (line 159 checks `usedSelectors.id`). -/
theorem C2_counterexample_id_not_repeatable :
    runChain [⟨Kind.id, "main"⟩, ⟨Kind.id, "x"⟩] = Except.error JsError.duplicateError := rfl

/-- C2, amended: the kinds Class, Attribute and PseudoClass (the kinds
    whose methods carry no duplicate check) may be applied repeatedly:
    after any successful application of such a kind, applying the same
    kind again succeeds and appends another formatted fragment. -/
theorem C2_amended_repeatable_kinds (k : Kind)
    (hk : k = Kind.className ∨ k = Kind.attribute ∨ k = Kind.pseudoClass)
    (v w : String) (b b' : Builder)
    (h : (applyPartOp k v b).result = Except.ok b') :
    ∃ t b'', b'.selector = some t ∧
      (applyPartOp k w b').result = Except.ok b'' ∧
      b''.selector = some (t ++ fragment k w) := by
  obtain ⟨s, u', hsel, husel, hord⟩ := applyPartOp_ok_inv h
  have hfragne : fragment k v ≠ "" := by
    rcases hk with rfl | rfl | rfl
    · exact append_ne_empty_of_left (by decide)
    · exact append_ne_empty_of_right (by decide)
    · exact append_ne_empty_of_left (by decide)
  have ht : truthy b'.selector = true := by
    rw [hsel]
    simp [truthy, append_ne_empty_of_right hfragne]
  have hdup : dupCheck k u' = false := by rcases hk with rfl | rfl | rfl <;> rfl
  have hdc : dupCond k b' = false := by simp [dupCond, husel, hdup]
  have hoc : orderCond k b' = false := by simp [orderCond, husel, hord]
  rw [hsel] at ht
  refine ⟨s ++ fragment k v, ⟨some (s ++ fragment k v ++ fragment k w), some (setFlag u' k)⟩,
    hsel, ?_, rfl⟩
  simp [applyPartOp, hdc, hoc, ht, husel, hsel]

/-- C2, witness: class applied twice in a row from the root succeeds, the
    second call appending another class fragment. -/
theorem C2_amended_repeatable_kinds_witness :
    applyPartOp Kind.className "container" rootBuilder =
      ⟨Except.ok ⟨some ".container", some (initialUsed Kind.className)⟩, rootBuilder, true⟩ ∧
    ∃ t b'', (Builder.mk (some ".container") (some (initialUsed Kind.className))).selector
        = some t ∧
      (applyPartOp Kind.className "draggable"
          ⟨some ".container", some (initialUsed Kind.className)⟩).result = Except.ok b'' ∧
      b''.selector = some (t ++ fragment Kind.className "draggable") :=
  ⟨rfl, C2_amended_repeatable_kinds Kind.className (Or.inl rfl) "container" "draggable"
    rootBuilder ⟨some ".container", some (initialUsed Kind.className)⟩ rfl⟩

/-- C3, counterexample: the claim says stringify on a builder that never
    received a part fails with an EmptySelector error; in the code
    `stringify()` on the root returns `this.selector`, which is
    `undefined` — it returns normally and raises nothing. -/
theorem C3_counterexample_render_on_root : stringify rootBuilder = Except.ok none := rfl

/-- C3, amended: calling stringify on a builder with zero part calls
    completes without any error and yields the undefined selector (no
    string), rather than raising EmptySelector. -/
theorem C3_amended_render_on_root :
    (stringify rootBuilder).isOk = true ∧ stringifyVal rootBuilder = none :=
  ⟨rfl, rfl⟩

/-- C4, confirmed: for already-built selectors a and b (each with a
    defined selector string) and any token t, `combine` performs no
    validation and never throws (it is a total function of the operand
    states, capturing them eagerly), and the render of the composite is
    render(a) ++ ' ' ++ t ++ ' ' ++ render(b). -/
theorem C4_combine_renders_joined (a b : Builder) (t sa sb : String)
    (ha : a.selector = some sa) (hb : b.selector = some sb) :
    stringify (combine a t b) = Except.ok (some (sa ++ " " ++ t ++ " " ++ sb)) := by
  simp [stringify, stringifyVal, combine, jsTemplateString, ha, hb]

/-- C4, witness: combining div#main and table#data with the token +
    renders as the expected example string. -/
theorem C4_combine_renders_joined_witness :
    runChain [⟨Kind.element, "div"⟩, ⟨Kind.id, "main"⟩]
      = Except.ok ⟨some "div#main", some ⟨true, true, false, false, false, false⟩⟩ ∧
    runChain [⟨Kind.element, "table"⟩, ⟨Kind.id, "data"⟩]
      = Except.ok ⟨some "table#data", some ⟨true, true, false, false, false, false⟩⟩ ∧
    stringify (combine ⟨some "div#main", some ⟨true, true, false, false, false, false⟩⟩ "+"
        ⟨some "table#data", some ⟨true, true, false, false, false, false⟩⟩)
      = Except.ok (some "div#main + table#data") := by
  refine ⟨rfl, rfl, ?_⟩
  have h := C4_combine_renders_joined
    ⟨some "div#main", some ⟨true, true, false, false, false, false⟩⟩
    ⟨some "table#data", some ⟨true, true, false, false, false, false⟩⟩ "+"
    "div#main" "table#data" rfl rfl
  exact h.trans (by rfl)

/-- C5, counterexample: on the chain element a, id b the highest kind
    seen is Id and the incoming kind Element is strictly lower and not
    identical to it, so the claim requires the out-of-order error; the
    code instead throws the duplicate error, because the duplicate check
    of `element` (line 123) runs before its ordering check (line 127). -/
theorem C5_counterexample_duplicate_precedence :
    runChain [⟨Kind.element, "a"⟩, ⟨Kind.id, "b"⟩]
      = Except.ok ⟨some "a#b", some ⟨true, true, false, false, false, false⟩⟩ ∧
    (applyPartOp Kind.element "c"
        ⟨some "a#b", some ⟨true, true, false, false, false, false⟩⟩).result
      = Except.error JsError.duplicateError :=
  ⟨rfl, rfl⟩

/-- C5, amended: if some strictly higher kind is already flagged on the
    chain and the duplicate (cardinality) check of the incoming kind does
    not fire — the duplicate check takes precedence — then the call fails
    with the ordering error. -/
theorem C5_amended_out_of_order_error (k j : Kind) (v : String) (b : Builder)
    (u : UsedSelectors) (hu : b.usedSelectors = some u)
    (hdup : dupCheck k u = false)
    (hj : k.order < j.order) (hjf : u.flag j = true) :
    (applyPartOp k v b).result = Except.error JsError.orderError := by
  have hdc : dupCond k b = false := by simp [dupCond, hu, hdup]
  have hoc : orderCond k b = true := by simp [orderCond, hu, orderCheck_true_of hj hjf]
  simp [applyPartOp, hdc, hoc]

/-- C5, witness: calling id then element raises the ordering error. -/
theorem C5_amended_out_of_order_error_witness :
    runChain [⟨Kind.id, "main"⟩]
      = Except.ok ⟨some "#main", some ⟨false, true, false, false, false, false⟩⟩ ∧
    (applyPartOp Kind.element "div"
        ⟨some "#main", some ⟨false, true, false, false, false, false⟩⟩).result
      = Except.error JsError.orderError :=
  ⟨rfl, C5_amended_out_of_order_error Kind.element Kind.id "div" _ _ rfl rfl (by decide) rfl⟩

/-- C6, confirmed: applying element when Element is already flagged, or
    pseudoElement when PseudoElement is already flagged, fails with the
    duplicate error (the duplicate check is the first check of both
    methods, so this holds whatever else the state contains). -/
theorem C6_duplicate_singleton_error (k : Kind)
    (hk : k = Kind.element ∨ k = Kind.pseudoElement)
    (v : String) (b : Builder) (u : UsedSelectors)
    (hu : b.usedSelectors = some u) (hf : u.flag k = true) :
    (applyPartOp k v b).result = Except.error JsError.duplicateError := by
  have hdc : dupCond k b = true := by
    rcases hk with rfl | rfl <;> simp [dupCond, hu, dupCheck] <;> exact hf
  simp [applyPartOp, hdc]

/-- C6, witness: calling element twice throws the duplicate error. -/
theorem C6_duplicate_singleton_error_witness :
    (applyPartOp Kind.element "p"
        ⟨some "a", some ⟨true, false, false, false, false, false⟩⟩).result
      = Except.error JsError.duplicateError :=
  C6_duplicate_singleton_error Kind.element (Or.inl rfl) "p" _ _ rfl rfl

/-- C7, confirmed: no part operation on a composite produced by `combine`
    ever succeeds in producing an extended selector: the composite has no
    `usedSelectors`, its selector string is truthy (it contains the two
    spaces), so every part method reaches the in-place branch and throws
    a TypeError when it assigns the flag of an undefined record. -/
theorem C7_composite_part_op_fails (k : Kind) (v t : String) (a b : Builder) :
    (applyPartOp k v (combine a t b)).result = Except.error JsError.typeError := by
  have ht : truthy (combine a t b).selector = true := by
    simp [combine, truthy, combine_selector_ne]
  have hdc : dupCond k (combine a t b) = false := rfl
  have hoc : orderCond k (combine a t b) = false := rfl
  have husel : (combine a t b).usedSelectors = none := rfl
  simp [applyPartOp, hdc, hoc, ht, husel]

/-- C8, confirmed: whenever a part call fails with one of the two defined
    errors (duplicate or out-of-order), the receiver state — selector and
    used kinds — is unchanged, because both checks run before any
    mutation; and stringify never raises at all (so an EmptySelector
    failure of render cannot mutate anything either). The one mutating
    failure, the TypeError of C7 and C10 contexts, is not one of the
    defined errors. -/
theorem C8_failed_call_keeps_state :
    (∀ (k : Kind) (v : String) (b : Builder) (e : JsError),
        e = JsError.duplicateError ∨ e = JsError.orderError →
        (applyPartOp k v b).result = Except.error e →
        (applyPartOp k v b).receiver = b)
      ∧ ∀ b : Builder, stringify b = Except.ok b.selector := by
  constructor
  · intro k v b e he h
    cases hdc : dupCond k b
    · cases hoc : orderCond k b
      · cases ht : truthy b.selector
        · simp [applyPartOp, hdc, hoc, ht] at h
        · cases husel : b.usedSelectors with
          | none =>
            exfalso
            simp [applyPartOp, hdc, hoc, ht, husel] at h
            rcases he with rfl | rfl <;> simp_all
          | some u => simp [applyPartOp, hdc, hoc, ht, husel] at h
      · simp [applyPartOp, hdc, hoc]
    · simp [applyPartOp, hdc]
  · intro b
    rfl

/-- C8, witness: an out-of-order element call on the chain id a leaves
    the receiver exactly as it was. -/
theorem C8_failed_call_keeps_state_witness :
    (applyPartOp Kind.element "b"
        ⟨some "#a", some ⟨false, true, false, false, false, false⟩⟩).receiver
      = ⟨some "#a", some ⟨false, true, false, false, false, false⟩⟩ :=
  C8_failed_call_keeps_state.1 Kind.element "b" _ JsError.orderError (Or.inr rfl) rfl

/-- C9, confirmed: a part operation invoked on the root factory (no
    selector, no usedSelectors) allocates a new independent state holding
    exactly its own fragment and flag, returns it as a fresh object, and
    leaves the factory unchanged — so chains started separately from the
    factory can never contaminate each other. -/
theorem C9_root_part_op_fresh_state (k : Kind) (v : String) :
    applyPartOp k v rootBuilder =
      ⟨Except.ok ⟨some (fragment k v), some (initialUsed k)⟩, rootBuilder, true⟩ := rfl

/-- C10, confirmed: after element with the empty value the accumulated
    selector is the empty string, which is falsy, so the next part call
    of any other kind does not extend the receiver in place: it allocates
    a fresh state whose flags are all reset except the incoming kind,
    returns a new builder object, leaves the receiver untouched, and the
    original builder still stringifies to the empty string. -/
theorem C10_empty_element_chain_quirk (b1 : Builder)
    (h1 : (applyPartOp Kind.element "" rootBuilder).result = Except.ok b1)
    (k : Kind) (v : String) (hk : k ≠ Kind.element) :
    (applyPartOp k v b1).fresh = true ∧
    (applyPartOp k v b1).receiver = b1 ∧
    (applyPartOp k v b1).result = Except.ok ⟨some (fragment k v), some (initialUsed k)⟩ ∧
    stringify b1 = Except.ok (some "") := by
  have hb : b1 = ⟨some "", some (initialUsed Kind.element)⟩ := by
    have h2 : Except.ok (⟨some "", some (initialUsed Kind.element)⟩ : Builder)
        = Except.ok b1 := h1
    exact (Except.ok.inj h2).symm
  subst hb
  cases k
  · exact absurd rfl hk
  · exact ⟨rfl, rfl, rfl, rfl⟩
  · exact ⟨rfl, rfl, rfl, rfl⟩
  · exact ⟨rfl, rfl, rfl, rfl⟩
  · exact ⟨rfl, rfl, rfl, rfl⟩
  · exact ⟨rfl, rfl, rfl, rfl⟩

/-- C10, witness: element with empty value, then id main: the id call
    returns a fresh builder with only the id flag and fragment, and the
    original still renders the empty string. -/
theorem C10_empty_element_chain_quirk_witness :
    (applyPartOp Kind.id "main" ⟨some "", some (initialUsed Kind.element)⟩).fresh = true ∧
    (applyPartOp Kind.id "main" ⟨some "", some (initialUsed Kind.element)⟩).receiver
      = ⟨some "", some (initialUsed Kind.element)⟩ ∧
    (applyPartOp Kind.id "main" ⟨some "", some (initialUsed Kind.element)⟩).result
      = Except.ok ⟨some (fragment Kind.id "main"), some (initialUsed Kind.id)⟩ ∧
    stringify ⟨some "", some (initialUsed Kind.element)⟩ = Except.ok (some "") :=
  C10_empty_element_chain_quirk ⟨some "", some (initialUsed Kind.element)⟩ rfl
    Kind.id "main" (by decide)
